import Mathlib

/-!
# Verification of the Automated Storm Monitor engine

Shallow embedding of the core of `backend/ml_models/storm_monitor.py`
(`AutomatedStormMonitor`): alert-level classification, hysteresis tracking of
active storms, alert deduplication and emission, cleanup, and the status
snapshot.  Probabilities, coordinates and timestamps are modelled as rationals
(timestamps in seconds), the MD5 signature hash as the hashed content itself,
and the async DB as an explicit list of records threaded through the
functions.  Python `dict` semantics (insertion order, in-place overwrite) are
modelled by association lists.
-/

namespace StormMonitor

/-- Python `int()` applied to a float/rational: truncation toward zero. -/
def pyInt (q : ℚ) : ℤ := if 0 ≤ q then ⌊q⌋ else ⌈q⌉

/-- Round-half-to-even on a rational, to an integer (Python `round(x)`). -/
def roundHalfEven (q : ℚ) : ℤ :=
  let f := ⌊q⌋
  let frac := q - f
  if frac < 1/2 then f
  else if 1/2 < frac then f + 1
  else if f % 2 = 0 then f else f + 1

/-- Python `round(x, 2)`: round to two decimal places, half to even. -/
def round2 (q : ℚ) : ℚ := (roundHalfEven (q * 100) : ℚ) / 100

/-! ## Association-list model of Python dicts -/

/-- `d[k] = v` on a Python dict: overwrite in place, or append a new key. -/
def dictSet {α : Type} (m : List (String × α)) (k : String) (v : α) :
    List (String × α) :=
  match m with
  | [] => [(k, v)]
  | (k', v') :: rest =>
    if k' = k then (k, v) :: rest else (k', v') :: dictSet rest k v

/-- `d.pop(k, None)` on a Python dict. -/
def dictPop {α : Type} (m : List (String × α)) (k : String) :
    List (String × α) :=
  m.filter (fun p => p.1 ≠ k)

/-- `k in d` on a Python dict. -/
def dictContains {α : Type} (m : List (String × α)) (k : String) : Bool :=
  m.any (fun p => p.1 = k)

/-- `d.get(k)` on a Python dict. -/
def dictGet? {α : Type} (m : List (String × α)) (k : String) : Option α :=
  (m.find? (fun p => p.1 = k)).map (fun p => p.2)

/-! ## Data model -/

/-- The five alert-level strings assigned by `_scan_station_for_storms`. -/
inductive AlertLevel where
  | TORNADO_EMERGENCY
  | TORNADO_WARNING
  | TORNADO_WATCH
  | SEVERE_THUNDERSTORM_WARNING
  | NORMAL_CONDITIONS
deriving DecidableEq, Repr

/-- A radar station document (`radar_stations` collection). -/
structure Station where
  station_id : String
  name : String
  latitude : ℚ
  longitude : ℚ
  elevation : ℚ
deriving DecidableEq, Repr

/-- One point of a predicted path trajectory. -/
structure PathPoint where
  latitude : ℚ
  longitude : ℚ
  t : ℚ
deriving DecidableEq, Repr

/-- The fixed-shape result of `InferenceEngine.predict_one`, as consumed by
the scan task: probability, EF class, confidence, location offsets, timing
and an optional path.  A Python `None`/missing path is `Option.none`. -/
structure Prediction where
  tornado_probability : ℚ
  most_likely_ef_scale : ℤ
  confidence : ℚ
  lat_offset : ℚ
  lng_offset : ℚ
  time_to_touchdown_minutes : ℚ
  path_trajectory : Option (List PathPoint)
deriving DecidableEq, Repr

/-- The prediction dict after the scan task enriched it with
`touchdown_location`, `alert_level`, `confidence_score` and a definite
`path_trajectory`. -/
structure EnrichedPred where
  tornado_probability : ℚ
  most_likely_ef_scale : ℤ
  confidence : ℚ
  touchdown_lat : ℚ
  touchdown_lng : ℚ
  alert_level : AlertLevel
  confidence_score : ℚ
  path_trajectory : List PathPoint
  time_to_touchdown_minutes : ℚ
deriving DecidableEq, Repr

/-- One value of the `active_storms` dict (the HazardState). -/
structure StormEntry where
  station_name : String
  station_lat : ℚ
  station_lng : ℚ
  pred : EnrichedPred
  last_updated : ℚ
  tornado_probability : ℚ
  alert_level : AlertLevel
deriving DecidableEq, Repr

/-- A persisted document of the `tornado_alerts` collection.  The MD5
`sig_hash` over `f"{sid}|{round(prob,2)}|{ef}"` is modelled by the hashed
content triple itself. -/
structure AlertRecord where
  station_id : String
  alert_type : String
  severity : ℤ
  predicted_lat : ℚ
  predicted_lng : ℚ
  predicted_path : List (ℚ × ℚ)
  confidence : ℤ
  message : String
  timestamp : ℚ
  estimated_touchdown_time : Option ℚ
  sig_hash : String × ℚ × ℤ
deriving DecidableEq, Repr

/-- The shared mutable state of the monitor: the `active_storms` dict and the
`tornado_alerts` collection. -/
structure MonitorState where
  active_storms : List (String × StormEntry)
  tornado_alerts : List AlertRecord
deriving DecidableEq, Repr

/-- The dict returned by `_scan_station_for_storms`. -/
inductive ScanResult where
  | success (station_id : String) (tornado_probability : ℚ)
      (alert_level : AlertLevel)
  | error (station_id : String) (msg : String)
deriving DecidableEq, Repr

/-- External inputs consumed by one scan of one station: whether the data
preparation / inference pipeline succeeds, the prediction it returns, the
assistant outcome (`none` models `summarize_alert` raising), and the wall
clock at the scan. -/
structure ScanInput where
  prep_ok : Bool
  pred : Prediction
  assistantMsg : Option String
  now : ℚ
deriving DecidableEq, Repr

/-! ## Classification -/

/-- Hysteresis enter threshold (`ACTIVE_ENTER`). -/
def ACTIVE_ENTER : ℚ := 0.20

/-- Hysteresis exit threshold (`ACTIVE_EXIT`). -/
def ACTIVE_EXIT : ℚ := 0.12

/-- The alert-level if/elif chain of `_scan_station_for_storms`. -/
def classifyAlertLevel (prob : ℚ) (ef : ℤ) (conf : ℚ) : AlertLevel :=
  if prob > 0.8 ∧ ef ≥ 3 ∧ conf > 0.7 then .TORNADO_EMERGENCY
  else if prob > 0.6 ∧ ef ≥ 2 then .TORNADO_WARNING
  else if prob > 0.4 then .TORNADO_WATCH
  else if prob > 0.2 then .SEVERE_THUNDERSTORM_WARNING
  else .NORMAL_CONDITIONS

/-- The spec's decision table for alert levels, transcribed from its own
wording (top-down, first match wins), to be compared with
`classifyAlertLevel`. -/
def specAlertLevel (prob : ℚ) (ef : ℤ) (conf : ℚ) : AlertLevel :=
  if prob > 0.80 ∧ ef ≥ 3 ∧ conf > 0.70 then .TORNADO_EMERGENCY
  else if prob > 0.60 ∧ ef ≥ 2 then .TORNADO_WARNING
  else if prob > 0.40 then .TORNADO_WATCH
  else if prob > 0.20 then .SEVERE_THUNDERSTORM_WARNING
  else .NORMAL_CONDITIONS

/-! ## Alert deduplication and emission (`_maybe_emit_alert`) -/

/-- The fixed fallback alert text used when the assistant returns a falsy
message. -/
def fallbackAlertMsg : String :=
  "Automated ML alert: Elevated tornado risk detected. Monitor local warnings and take shelter if advised."

/-- The dedup signature content: `f"{sid}|{round(prob,2)}|{ef}"` (the MD5 of
this string is modelled by the triple itself). -/
def sigOf (sid : String) (pred : EnrichedPred) : String × ℚ × ℤ :=
  (sid, round2 pred.tornado_probability, pred.most_likely_ef_scale)

/-- The `find_one` dedup query: same station, `AUTOMATED_ML_ANALYSIS`, same
signature hash, timestamp at or after `since`. -/
def isDuplicate (db : List AlertRecord) (sid : String)
    (sig : String × ℚ × ℤ) (since : ℚ) : Bool :=
  db.any (fun r =>
    r.station_id = sid ∧ r.alert_type = "AUTOMATED_ML_ANALYSIS" ∧
    r.sig_hash = sig ∧ r.timestamp ≥ since)

/-- The `alert_doc` built and inserted by `_maybe_emit_alert`. -/
def mkAlertDoc (station : Station) (pred : EnrichedPred) (now : ℚ)
    (msg : String) : AlertRecord :=
  { station_id := station.station_id
    alert_type := "AUTOMATED_ML_ANALYSIS"
    severity := min 5 (max 1 (pyInt (pred.tornado_probability * 5) + 1))
    predicted_lat := pred.touchdown_lat
    predicted_lng := pred.touchdown_lng
    predicted_path :=
      (pred.path_trajectory.take 3).map (fun p => (p.latitude, p.longitude))
    confidence := pyInt (pred.confidence_score * 100)
    message := msg
    timestamp := now
    estimated_touchdown_time :=
      if pred.time_to_touchdown_minutes > 0 then
        some (now + pred.time_to_touchdown_minutes * 60)
      else none
    sig_hash := sigOf station.station_id pred }

/-- `_maybe_emit_alert`.  If a duplicate is found within 15 minutes the DB is
returned unchanged.  Otherwise the code runs
`with contextlib.suppress(Exception): msg = await assistant...` and then
`if not msg:` — when the assistant call raises (`assistantMsg = none`) the
suppressed exception leaves the local `msg` unbound and `if not msg` raises
`UnboundLocalError`, so the whole call fails without inserting; this is the
`Except.error` branch.  When the assistant returns a falsy (empty) string the
fixed fallback message is substituted. -/
def maybeEmitAlert (db : List AlertRecord) (now : ℚ)
    (assistantMsg : Option String) (station : Station) (pred : EnrichedPred) :
    Except String (List AlertRecord) :=
  let sig := sigOf station.station_id pred
  let since := now - 15 * 60
  if isDuplicate db station.station_id sig since then .ok db
  else
    match assistantMsg with
    | none =>
      .error "local variable referenced before assignment"
    | some m =>
      let msg := if m = "" then fallbackAlertMsg else m
      .ok (db ++ [mkAlertDoc station pred now msg])

/-! ## The station scan task (`_scan_station_for_storms`) -/

/-- The synthetic 10-point path used when the prediction supplies none
(or a falsy empty one). -/
def defaultPath (lat lon : ℚ) : List PathPoint :=
  (List.range 10).map (fun i =>
    { latitude := lat + i * 0.002, longitude := lon + i * 0.003, t := i * 2 })

/-- The enrichment performed on the prediction dict by the scan task:
absolute touchdown coordinates, alert level, confidence score, default
path. -/
def enrichPred (station : Station) (p : Prediction) : EnrichedPred :=
  let lat := station.latitude + p.lat_offset * 0.01
  let lon := station.longitude + p.lng_offset * 0.01
  { tornado_probability := p.tornado_probability
    most_likely_ef_scale := p.most_likely_ef_scale
    confidence := p.confidence
    touchdown_lat := lat
    touchdown_lng := lon
    alert_level :=
      classifyAlertLevel p.tornado_probability p.most_likely_ef_scale
        p.confidence
    confidence_score := p.confidence
    path_trajectory :=
      match p.path_trajectory with
      | none => defaultPath lat lon
      | some l => if l = [] then defaultPath lat lon else l
    time_to_touchdown_minutes := p.time_to_touchdown_minutes }

/-- The `active_storms[sid] = {...}` value written while a storm is
active. -/
def mkStormEntry (station : Station) (i : ScanInput) : StormEntry :=
  { station_name := station.name
    station_lat := station.latitude
    station_lng := station.longitude
    pred := enrichPred station i.pred
    last_updated := i.now
    tornado_probability := i.pred.tornado_probability
    alert_level :=
      classifyAlertLevel i.pred.tornado_probability
        i.pred.most_likely_ef_scale i.pred.confidence }

/-- The hysteresis update of `active_storms`:
`if prob >= ACTIVE_ENTER: overwrite; elif sid in active and prob <
ACTIVE_EXIT: pop; else: leave unchanged`. -/
def updateActiveStorms (m : List (String × StormEntry)) (sid : String)
    (prob : ℚ) (e : StormEntry) : List (String × StormEntry) :=
  if prob ≥ ACTIVE_ENTER then dictSet m sid e
  else if dictContains m sid ∧ prob < ACTIVE_EXIT then dictPop m sid
  else m

/-- One invocation of `_scan_station_for_storms` (the body under the station
lock).  A pipeline failure (`prep_ok = false`) models `prepare_prediction_data`
or `predict_one` raising, caught by the surrounding `except` before any state
was touched.  The hysteresis update happens before the conditional alert
emission, so an emission failure yields an `error` result with the
`active_storms` update already applied. -/
def scanStation (st : MonitorState) (station : Station) (i : ScanInput) :
    MonitorState × ScanResult :=
  let sid := station.station_id
  if i.prep_ok = false then
    (st, .error sid "pipeline failure")
  else
    let prob := i.pred.tornado_probability
    let ef := i.pred.most_likely_ef_scale
    let conf := i.pred.confidence
    let alert := classifyAlertLevel prob ef conf
    let epred := enrichPred station i.pred
    let storms' := updateActiveStorms st.active_storms sid prob
      (mkStormEntry station i)
    let st' : MonitorState := { st with active_storms := storms' }
    if prob > 0.30 ∨ alert ≠ AlertLevel.NORMAL_CONDITIONS then
      match maybeEmitAlert st'.tornado_alerts i.now i.assistantMsg station
          epred with
      | .ok db' =>
        ({ st' with tornado_alerts := db' }, .success sid prob alert)
      | .error e => (st', .error sid e)
    else
      (st', .success sid prob alert)

/-- A sequence of scans of one station, folded left to right. -/
def scanSeq (st : MonitorState) (station : Station) :
    List ScanInput → MonitorState
  | [] => st
  | i :: is => scanSeq (scanStation st station i).1 station is

/-! ## Cleanup (`_cleanup_old_predictions`, one cycle) -/

/-- One cycle of the cleanup loop: delete `AUTOMATED_ML_ANALYSIS` alerts older
than 24 hours, prune `active_storms` entries idle for more than one hour. -/
def cleanupOldPredictions (st : MonitorState) (now : ℚ) : MonitorState :=
  { active_storms :=
      st.active_storms.filter
        (fun p => decide (¬ (now - p.2.last_updated > 3600)))
    tornado_alerts :=
      st.tornado_alerts.filter
        (fun r => decide (¬ (r.alert_type = "AUTOMATED_ML_ANALYSIS" ∧
          r.timestamp < now - 24 * 3600))) }

/-! ## Status snapshot (`get_active_storms`) -/

/-- One item of the `get_active_storms()` snapshot. -/
structure ActiveStormItem where
  stationId : String
  stationName : String
  latitude : ℚ
  longitude : ℚ
  tornadoProbability : ℤ
  alertLevel : AlertLevel
  predictedEFScale : ℤ
  confidence : ℤ
  lastUpdated : ℚ
  touchdownTime : ℚ
deriving DecidableEq, Repr

/-- The item built for one `active_storms` entry. -/
def itemOfEntry (sid : String) (s : StormEntry) : ActiveStormItem :=
  { stationId := sid
    stationName := s.station_name
    latitude := s.station_lat
    longitude := s.station_lng
    tornadoProbability := pyInt (s.tornado_probability * 100)
    alertLevel := s.alert_level
    predictedEFScale := s.pred.most_likely_ef_scale
    confidence := pyInt (s.pred.confidence_score * 100)
    lastUpdated := s.last_updated
    touchdownTime := s.pred.time_to_touchdown_minutes }

/-- Stable insertion into a list already sorted by `tornadoProbability`
descending (the stable `sorted(..., key=..., reverse=True)`). -/
def insertByProbDesc (x : ActiveStormItem) :
    List ActiveStormItem → List ActiveStormItem
  | [] => [x]
  | y :: ys =>
    if y.tornadoProbability ≤ x.tornadoProbability then x :: y :: ys
    else y :: insertByProbDesc x ys

/-- Stable sort by `tornadoProbability` descending. -/
def sortByProbDesc : List ActiveStormItem → List ActiveStormItem
  | [] => []
  | x :: xs => insertByProbDesc x (sortByProbDesc xs)

/-- `get_active_storms()`: one item per `active_storms` entry, sorted by the
integer percentage probability, descending. -/
def get_active_storms (st : MonitorState) : List ActiveStormItem :=
  sortByProbDesc (st.active_storms.map (fun p => itemOfEntry p.1 p.2))

/-- `sid` currently has a HazardState entry. -/
def isActive (st : MonitorState) (sid : String) : Bool :=
  dictContains st.active_storms sid

/-! ## Reachable monitor states -/

/-- States reachable from the freshly initialised monitor (empty
`active_storms`, empty alert collection) by scans and cleanup cycles. -/
inductive Reachable : MonitorState → Prop where
  | init : Reachable { active_storms := [], tornado_alerts := [] }
  | scan (st : MonitorState) (station : Station) (i : ScanInput) :
      Reachable st → Reachable (scanStation st station i).1
  | cleanup (st : MonitorState) (now : ℚ) :
      Reachable st → Reachable (cleanupOldPredictions st now)

/-! ## Concrete test fixtures -/

/-- A concrete station used in concrete evaluations. -/
def tStation : Station :=
  { station_id := "S1", name := "Test Station", latitude := 35,
    longitude := -97, elevation := 370 }

/-- A concrete prediction with the given probability, EF class and
confidence, no supplied path. -/
def basePred (p : ℚ) (ef : ℤ) (conf : ℚ) : Prediction :=
  { tornado_probability := p, most_likely_ef_scale := ef, confidence := conf,
    lat_offset := 1, lng_offset := -2, time_to_touchdown_minutes := 30,
    path_trajectory := none }

/-- A concrete successful scan input with working assistant. -/
def baseInput (p : ℚ) (t : ℚ) : ScanInput :=
  { prep_ok := true, pred := basePred p 1 0.5, assistantMsg := some "A",
    now := t }

/-- The freshly initialised monitor state. -/
def initState : MonitorState := { active_storms := [], tornado_alerts := [] }

/-- A state in which `S1` is active with `last_updated = 0` (stored
probability 0.25). -/
def c3State : MonitorState :=
  { active_storms := [("S1", mkStormEntry tStation (baseInput 0.25 0))],
    tornado_alerts := [] }

/-- A dead-band scan of `S1` at time 1000 with probability 0.15. -/
def c3Input : ScanInput := baseInput 0.15 1000

/-- A scan input whose assistant call raises (`assistantMsg = none`) at a
probability that passes the emission gate. -/
def c5Input : ScanInput :=
  { prep_ok := true, pred := basePred 0.5 1 0.5, assistantMsg := none,
    now := 0 }

/-- The five scan inputs of the end-to-end scenario: probabilities
`[0.05, 0.25, 0.65, 0.30, 0.10]`, fixed EF class 1 and confidence 0.5,
one scan per minute. -/
def c6Inputs : List ScanInput :=
  [baseInput 0.05 0, baseInput 0.25 60, baseInput 0.65 120,
   baseInput 0.30 180, baseInput 0.10 240]

/-- The monitor state after the first `n` scans of the scenario. -/
def c6After (n : ℕ) : MonitorState :=
  scanSeq initState tStation (c6Inputs.take n)

/-- The HazardState entry written by a scenario scan of probability `p` at
time `t`. -/
def c6Entry (p t : ℚ) : StormEntry := mkStormEntry tStation (baseInput p t)

/-- The alert persisted by a scenario scan of probability `p` at time `t`. -/
def c6Alert (p t : ℚ) : AlertRecord :=
  mkAlertDoc tStation (enrichPred tStation (basePred p 1 0.5)) t "A"

/-- An `AUTOMATED_ML_ANALYSIS` alert aged 23h59m at the cleanup instant
100000. -/
def c7AlertYoung : AlertRecord :=
  mkAlertDoc tStation (enrichPred tStation (basePred 0.5 1 0.5)) 13660 "m"

/-- An `AUTOMATED_ML_ANALYSIS` alert aged 24h01m at the cleanup instant
100000. -/
def c7AlertOld : AlertRecord :=
  mkAlertDoc tStation (enrichPred tStation (basePred 0.6 1 0.5)) 13540 "m"

/-- A non-AUTOMATED alert far older than 24h. -/
def c7AlertManual : AlertRecord :=
  { mkAlertDoc tStation (enrichPred tStation (basePred 0.7 1 0.5)) 1000 "m"
    with alert_type := "MANUAL" }

/-- A HazardState entry idle for 59 minutes at the cleanup instant 100000. -/
def c7EntryFresh : StormEntry := mkStormEntry tStation (baseInput 0.4 96460)

/-- A HazardState entry idle for 61 minutes at the cleanup instant 100000. -/
def c7EntryStale : StormEntry := mkStormEntry tStation (baseInput 0.4 96340)

/-- A concrete monitor state exercising all four cleanup boundary cases. -/
def c7State : MonitorState :=
  { active_storms := [("A", c7EntryFresh), ("B", c7EntryStale)],
    tornado_alerts := [c7AlertYoung, c7AlertOld, c7AlertManual] }

/-- An enriched prediction with `confidence_score = 0.756`, whose stored
confidence (truncation) differs from rounding. -/
def c8Pred : EnrichedPred := enrichPred tStation (basePred 0.5 1 0.756)

/-! ## Helper lemmas -/

lemma dictContains_dictSet_self {α : Type} (m : List (String × α)) (k : String)
    (v : α) : dictContains (dictSet m k v) k = true := by
  induction m with
  | nil => simp [dictSet, dictContains]
  | cons p rest ih =>
    obtain ⟨k', v'⟩ := p
    by_cases h : k' = k
    · simp [dictSet, h, dictContains]
    · simp only [dictSet, if_neg h, dictContains, List.any_cons]
      simp only [dictContains] at ih
      simp [ih]

lemma dictGet?_dictSet_self {α : Type} (m : List (String × α)) (k : String)
    (v : α) : dictGet? (dictSet m k v) k = some v := by
  induction m with
  | nil => simp [dictSet, dictGet?, List.find?]
  | cons p rest ih =>
    obtain ⟨k', v'⟩ := p
    by_cases h : k' = k
    · simp [dictSet, h, dictGet?, List.find?]
    · simp only [dictSet, if_neg h]
      unfold dictGet? at ih ⊢
      rw [List.find?_cons_of_neg _ (by simpa using h)]
      exact ih

lemma mem_dictSet {α : Type} {m : List (String × α)} {k : String} {v : α}
    {p : String × α} (hp : p ∈ dictSet m k v) : p = (k, v) ∨ p ∈ m := by
  induction m with
  | nil => simpa [dictSet] using hp
  | cons q rest ih =>
    obtain ⟨k', v'⟩ := q
    by_cases h : k' = k
    · simp only [dictSet, if_pos h] at hp
      rcases List.mem_cons.mp hp with h1 | h1
      · exact Or.inl h1
      · exact Or.inr (List.mem_cons_of_mem _ h1)
    · simp only [dictSet, if_neg h] at hp
      rcases List.mem_cons.mp hp with h1 | h1
      · exact Or.inr (h1 ▸ List.mem_cons_self _ _)
      · rcases ih h1 with h2 | h2
        · exact Or.inl h2
        · exact Or.inr (List.mem_cons_of_mem _ h2)

/-- The `active_storms` component after one scan: unchanged on pipeline
failure, otherwise the hysteresis update — independently of whether the
alert emission runs, succeeds or fails. -/
lemma scanStation_fst_active_storms (st : MonitorState) (station : Station)
    (i : ScanInput) :
    (scanStation st station i).1.active_storms =
      if i.prep_ok then
        updateActiveStorms st.active_storms station.station_id
          i.pred.tornado_probability (mkStormEntry station i)
      else st.active_storms := by
  cases hok : i.prep_ok with
  | false => simp [scanStation, hok]
  | true =>
    simp only [scanStation, hok, if_true, Bool.true_eq_false, if_false]
    split
    · split <;> rfl
    · rfl

/-- On pipeline failure the whole state is untouched. -/
lemma scanStation_prep_fail (st : MonitorState) (station : Station)
    (i : ScanInput) (h : i.prep_ok = false) :
    (scanStation st station i).1 = st := by
  simp [scanStation, h]

lemma updateActiveStorms_in_band (m : List (String × StormEntry))
    (sid : String) (prob : ℚ) (e : StormEntry)
    (hlo : ACTIVE_EXIT ≤ prob) (hhi : prob < ACTIVE_ENTER) :
    updateActiveStorms m sid prob e = m := by
  unfold updateActiveStorms
  rw [if_neg (by exact not_le.mpr hhi), if_neg]
  rintro ⟨-, h2⟩
  exact absurd hlo (not_le.mpr h2)

/-- A scan whose probability lies in the dead band `[EXIT, ENTER)` leaves
`active_storms` unchanged (whether or not the pipeline succeeded). -/
lemma scan_active_storms_in_band (st : MonitorState) (station : Station)
    (i : ScanInput) (hlo : ACTIVE_EXIT ≤ i.pred.tornado_probability)
    (hhi : i.pred.tornado_probability < ACTIVE_ENTER) :
    (scanStation st station i).1.active_storms = st.active_storms := by
  rw [scanStation_fst_active_storms]
  cases i.prep_ok
  · rfl
  · simpa using updateActiveStorms_in_band st.active_storms
      station.station_id i.pred.tornado_probability (mkStormEntry station i)
      hlo hhi

lemma mem_insertByProbDesc {x y : ActiveStormItem} {l : List ActiveStormItem}
    (h : y ∈ insertByProbDesc x l) : y = x ∨ y ∈ l := by
  induction l with
  | nil => simpa [insertByProbDesc] using h
  | cons z zs ih =>
    unfold insertByProbDesc at h
    split at h
    · rcases List.mem_cons.mp h with h1 | h1
      · exact Or.inl h1
      · exact Or.inr h1
    · rcases List.mem_cons.mp h with h1 | h1
      · exact Or.inr (h1 ▸ List.mem_cons_self _ _)
      · rcases ih h1 with h2 | h2
        · exact Or.inl h2
        · exact Or.inr (List.mem_cons_of_mem _ h2)

lemma pairwise_insertByProbDesc (x : ActiveStormItem)
    (l : List ActiveStormItem)
    (h : l.Pairwise (fun a b => b.tornadoProbability ≤ a.tornadoProbability)) :
    (insertByProbDesc x l).Pairwise
      (fun a b => b.tornadoProbability ≤ a.tornadoProbability) := by
  induction l with
  | nil => simp [insertByProbDesc]
  | cons z zs ih =>
    rcases List.pairwise_cons.mp h with ⟨hz, hzs⟩
    unfold insertByProbDesc
    split
    case isTrue hc =>
      refine List.pairwise_cons.mpr ⟨?_, h⟩
      intro b hb
      rcases List.mem_cons.mp hb with h1 | h1
      · exact h1 ▸ hc
      · exact le_trans (hz b h1) hc
    case isFalse hc =>
      refine List.pairwise_cons.mpr ⟨?_, ih hzs⟩
      intro b hb
      rcases mem_insertByProbDesc hb with h1 | h1
      · exact h1 ▸ le_of_lt (lt_of_not_le hc)
      · exact hz b h1

lemma pairwise_sortByProbDesc (l : List ActiveStormItem) :
    (sortByProbDesc l).Pairwise
      (fun a b => b.tornadoProbability ≤ a.tornadoProbability) := by
  induction l with
  | nil => simp [sortByProbDesc]
  | cons x xs ih => exact pairwise_insertByProbDesc x (sortByProbDesc xs) ih

lemma length_insertByProbDesc (x : ActiveStormItem)
    (l : List ActiveStormItem) :
    (insertByProbDesc x l).length = l.length + 1 := by
  induction l with
  | nil => rfl
  | cons z zs ih =>
    unfold insertByProbDesc
    split
    · rfl
    · simpa [List.length_cons] using ih

lemma length_sortByProbDesc (l : List ActiveStormItem) :
    (sortByProbDesc l).length = l.length := by
  induction l with
  | nil => rfl
  | cons x xs ih =>
    unfold sortByProbDesc
    rw [length_insertByProbDesc, ih, List.length_cons]

lemma updateActiveStorms_mem {m : List (String × StormEntry)} {sid : String}
    {prob : ℚ} {e : StormEntry} {p : String × StormEntry}
    (hmem : p ∈ updateActiveStorms m sid prob e)
    (hinv : ∀ q ∈ m, ACTIVE_ENTER ≤ q.2.tornado_probability)
    (he : e.tornado_probability = prob) :
    ACTIVE_ENTER ≤ p.2.tornado_probability := by
  unfold updateActiveStorms at hmem
  split at hmem
  case isTrue hc =>
    rcases mem_dictSet hmem with h1 | h1
    · rw [h1]
      simpa [he] using hc
    · exact hinv p h1
  case isFalse =>
    split at hmem
    · exact hinv p (List.mem_of_mem_filter hmem)
    · exact hinv p hmem

/-! ## Evaluation lemmas for the branches of the scan task -/

lemma updateActiveStorms_of_enter {m : List (String × StormEntry)}
    {sid : String} {prob : ℚ} {e : StormEntry} (h : ACTIVE_ENTER ≤ prob) :
    updateActiveStorms m sid prob e = dictSet m sid e := by
  unfold updateActiveStorms
  rw [if_pos h]

lemma updateActiveStorms_of_exit {m : List (String × StormEntry)}
    {sid : String} {prob : ℚ} {e : StormEntry}
    (h1 : dictContains m sid = true) (h2 : prob < ACTIVE_EXIT) :
    updateActiveStorms m sid prob e = dictPop m sid := by
  unfold updateActiveStorms
  rw [if_neg, if_pos ⟨h1, h2⟩]
  exact not_le.mpr (lt_of_lt_of_le h2 (by norm_num [ACTIVE_EXIT, ACTIVE_ENTER]))

lemma updateActiveStorms_of_inactive_low {m : List (String × StormEntry)}
    {sid : String} {prob : ℚ} {e : StormEntry}
    (h1 : dictContains m sid = false) (h2 : prob < ACTIVE_ENTER) :
    updateActiveStorms m sid prob e = m := by
  unfold updateActiveStorms
  rw [if_neg (not_le.mpr h2), if_neg]
  rintro ⟨hc, -⟩
  simp [h1] at hc

lemma maybeEmitAlert_of_dup {db : List AlertRecord} {now : ℚ}
    {a : Option String} {station : Station} {pred : EnrichedPred}
    (h : isDuplicate db station.station_id (sigOf station.station_id pred)
        (now - 15 * 60) = true) :
    maybeEmitAlert db now a station pred = .ok db := by
  unfold maybeEmitAlert
  rw [if_pos h]

lemma maybeEmitAlert_fresh_some {db : List AlertRecord} {now : ℚ}
    {m : String} {station : Station} {pred : EnrichedPred}
    (h : isDuplicate db station.station_id (sigOf station.station_id pred)
        (now - 15 * 60) = false)
    (hm : ¬ m = "") :
    maybeEmitAlert db now (some m) station pred
      = .ok (db ++ [mkAlertDoc station pred now m]) := by
  unfold maybeEmitAlert
  rw [if_neg (by simp [h])]
  simp [hm]

lemma maybeEmitAlert_fresh_none {db : List AlertRecord} {now : ℚ}
    {station : Station} {pred : EnrichedPred}
    (h : isDuplicate db station.station_id (sigOf station.station_id pred)
        (now - 15 * 60) = false) :
    maybeEmitAlert db now none station pred
      = .error "local variable referenced before assignment" := by
  unfold maybeEmitAlert
  rw [if_neg (by simp [h])]

lemma scanStation_of_gate_false {st : MonitorState} {station : Station}
    {i : ScanInput} (hok : i.prep_ok = true)
    (hp : i.pred.tornado_probability ≤ 0.30)
    (ha : classifyAlertLevel i.pred.tornado_probability
        i.pred.most_likely_ef_scale i.pred.confidence
        = AlertLevel.NORMAL_CONDITIONS) :
    scanStation st station i =
      (MonitorState.mk
        (updateActiveStorms st.active_storms station.station_id
          i.pred.tornado_probability (mkStormEntry station i))
        st.tornado_alerts,
       .success station.station_id i.pred.tornado_probability
         AlertLevel.NORMAL_CONDITIONS) := by
  simp only [scanStation, hok, Bool.true_eq_false, if_false, ha]
  rw [if_neg]
  push_neg
  exact ⟨hp, rfl⟩

lemma scanStation_of_emit_ok {st : MonitorState} {station : Station}
    {i : ScanInput} {db' : List AlertRecord} (hok : i.prep_ok = true)
    (hgate : i.pred.tornado_probability > 0.30 ∨
      classifyAlertLevel i.pred.tornado_probability
        i.pred.most_likely_ef_scale i.pred.confidence
        ≠ AlertLevel.NORMAL_CONDITIONS)
    (hemit : maybeEmitAlert st.tornado_alerts i.now i.assistantMsg station
        (enrichPred station i.pred) = .ok db') :
    scanStation st station i =
      (MonitorState.mk
        (updateActiveStorms st.active_storms station.station_id
          i.pred.tornado_probability (mkStormEntry station i))
        db',
       .success station.station_id i.pred.tornado_probability
         (classifyAlertLevel i.pred.tornado_probability
           i.pred.most_likely_ef_scale i.pred.confidence)) := by
  simp only [scanStation, hok, Bool.true_eq_false, if_false]
  rw [if_pos hgate, hemit]

lemma scanStation_of_emit_error {st : MonitorState} {station : Station}
    {i : ScanInput} {e : String} (hok : i.prep_ok = true)
    (hgate : i.pred.tornado_probability > 0.30 ∨
      classifyAlertLevel i.pred.tornado_probability
        i.pred.most_likely_ef_scale i.pred.confidence
        ≠ AlertLevel.NORMAL_CONDITIONS)
    (hemit : maybeEmitAlert st.tornado_alerts i.now i.assistantMsg station
        (enrichPred station i.pred) = .error e) :
    scanStation st station i =
      (MonitorState.mk
        (updateActiveStorms st.active_storms station.station_id
          i.pred.tornado_probability (mkStormEntry station i))
        st.tornado_alerts,
       .error station.station_id e) := by
  simp only [scanStation, hok, Bool.true_eq_false, if_false]
  rw [if_pos hgate, hemit]

/-! ## Claim theorems -/

/-- C1: the Scan Task assigns the alert level exactly by the spec's decision
table evaluated top-down (first match wins): EMERGENCY if prob > 0.80 ∧
ef ≥ 3 ∧ conf > 0.70; else WARNING if prob > 0.60 ∧ ef ≥ 2; else WATCH if
prob > 0.40; else ADVISORY if prob > 0.20; else NORMAL — and the five quoted
rows evaluate as stated. -/
theorem C1_classification_table :
    (∀ (p : ℚ) (ef : ℤ) (c : ℚ),
        classifyAlertLevel p ef c = specAlertLevel p ef c)
    ∧ classifyAlertLevel 0.85 3 0.75 = AlertLevel.TORNADO_EMERGENCY
    ∧ classifyAlertLevel 0.65 2 0.50 = AlertLevel.TORNADO_WARNING
    ∧ classifyAlertLevel 0.45 1 0.50 = AlertLevel.TORNADO_WATCH
    ∧ classifyAlertLevel 0.25 0 0.50 = AlertLevel.SEVERE_THUNDERSTORM_WARNING
    ∧ classifyAlertLevel 0.05 0 0.50 = AlertLevel.NORMAL_CONDITIONS := by
  refine ⟨fun p ef c => ?_, ?_, ?_, ?_, ?_, ?_⟩
  · unfold classifyAlertLevel specAlertLevel
    norm_num
  all_goals norm_num [classifyAlertLevel]

/-- C3 counterexample: with station S1 ACTIVE (entry written at time 0), a
successful dead-band scan (probability 0.15, time 1000) returns `success`
yet leaves the whole state — in particular the entry's `last_updated`, still
0 — unchanged, contradicting "every successful scan refreshes the entry
regardless of probability". -/
theorem C3_counterexample :
    (scanStation c3State tStation c3Input).2
      = ScanResult.success "S1" 0.15 AlertLevel.NORMAL_CONDITIONS
    ∧ (scanStation c3State tStation c3Input).1 = c3State
    ∧ c3Input.now = 1000
    ∧ (dictGet? c3State.active_storms "S1").map StormEntry.last_updated
        = some 0 := by
  have h := @scanStation_of_gate_false c3State tStation c3Input rfl
    (by show (0.15 : ℚ) ≤ 0.30; norm_num)
    (by show classifyAlertLevel 0.15 1 0.5 = _; norm_num [classifyAlertLevel])
  rw [updateActiveStorms_in_band _ _ _ _
    (by show ACTIVE_EXIT ≤ (0.15 : ℚ); norm_num [ACTIVE_EXIT])
    (by show (0.15 : ℚ) < ACTIVE_ENTER; norm_num [ACTIVE_ENTER])] at h
  rw [h]
  exact ⟨rfl, rfl, rfl, rfl⟩

/-- C3 (amended): while a station is ACTIVE, a successful scan refreshes its
HazardState entry (including `last_updated`) exactly when the probability is
≥ ENTER (0.20); a scan with probability in the dead band [0.12, 0.20) leaves
`active_storms` — hence the stored entry and its `last_updated` —
unchanged. -/
theorem C3_amended_refresh (st : MonitorState) (station : Station)
    (i : ScanInput) (hact : isActive st station.station_id = true) :
    (ACTIVE_ENTER ≤ i.pred.tornado_probability → i.prep_ok = true →
      dictGet? (scanStation st station i).1.active_storms station.station_id
        = some (mkStormEntry station i))
    ∧ (ACTIVE_EXIT ≤ i.pred.tornado_probability →
        i.pred.tornado_probability < ACTIVE_ENTER →
        (scanStation st station i).1.active_storms = st.active_storms) := by
  constructor
  · intro hge hok
    rw [scanStation_fst_active_storms, if_pos hok]
    unfold updateActiveStorms
    rw [if_pos hge]
    exact dictGet?_dictSet_self _ _ _
  · intro h1 h2
    exact scan_active_storms_in_band st station i h1 h2

/-- Witness for the amended C3: concrete refresh at probability 0.25 and
concrete dead-band no-op at probability 0.15. -/
theorem C3_amended_refresh_witness :
    dictGet?
        (scanStation c3State tStation (baseInput 0.25 1000)).1.active_storms
        "S1"
      = some (mkStormEntry tStation (baseInput 0.25 1000))
    ∧ (scanStation c3State tStation c3Input).1.active_storms
      = c3State.active_storms :=
  ⟨(C3_amended_refresh c3State tStation (baseInput 0.25 1000)
      (by simp [isActive, dictContains, c3State, tStation])).1
      (by show ACTIVE_ENTER ≤ (0.25 : ℚ); norm_num [ACTIVE_ENTER]) rfl,
   (C3_amended_refresh c3State tStation c3Input
      (by simp [isActive, dictContains, c3State, tStation])).2
      (by show ACTIVE_EXIT ≤ (0.15 : ℚ); norm_num [ACTIVE_EXIT])
      (by show (0.15 : ℚ) < ACTIVE_ENTER; norm_num [ACTIVE_ENTER])⟩

/-- C5: the code contradicts the claim (and its own fallback line): at a
concrete emission whose assistant call raises (`assistantMsg = none`,
probability 0.5 so the gate passes, empty history), the suppressed exception
leaves the local message variable unbound, the subsequent truthiness test
raises, the scan returns an `error` result and no alert is persisted — the
hysteresis update, which precedes the emission, has still been applied. -/
theorem C5_assistant_failure_is_fatal :
    (scanStation initState tStation c5Input).2
      = ScanResult.error "S1" "local variable referenced before assignment"
    ∧ (scanStation initState tStation c5Input).1.tornado_alerts = []
    ∧ isActive (scanStation initState tStation c5Input).1 "S1" = true := by
  have hemit : maybeEmitAlert initState.tornado_alerts c5Input.now
      c5Input.assistantMsg tStation (enrichPred tStation c5Input.pred)
      = .error "local variable referenced before assignment" :=
    maybeEmitAlert_fresh_none (by simp [isDuplicate, initState])
  have h := scanStation_of_emit_error rfl
    (Or.inl (by show (0.5 : ℚ) > 0.30; norm_num)) hemit
  rw [h, updateActiveStorms_of_enter
    (by show ACTIVE_ENTER ≤ (0.5 : ℚ); norm_num [ACTIVE_ENTER])]
  refine ⟨rfl, rfl, ?_⟩
  simp [isActive, dictContains, dictSet, initState, tStation]

/-- C2: hysteresis no-flap — once a station is ACTIVE, any sequence of scans
whose probabilities stay strictly between EXIT (0.12) and ENTER (0.20) keeps
it ACTIVE at every point (every prefix), and a single scan can deactivate the
scanned station only if its pipeline succeeded and the scanned probability
was below EXIT (0.12). -/
theorem C2_hysteresis_no_flap :
    (∀ (st : MonitorState) (station : Station) (inps : List ScanInput),
      isActive st station.station_id = true →
      (∀ i ∈ inps, ACTIVE_EXIT < i.pred.tornado_probability ∧
        i.pred.tornado_probability < ACTIVE_ENTER) →
      ∀ n : ℕ,
        isActive (scanSeq st station (inps.take n)) station.station_id
          = true)
    ∧ (∀ (st : MonitorState) (station : Station) (i : ScanInput),
      isActive st station.station_id = true →
      isActive (scanStation st station i).1 station.station_id = false →
      i.prep_ok = true ∧ i.pred.tornado_probability < ACTIVE_EXIT) := by
  constructor
  · intro st station inps
    induction inps generalizing st with
    | nil =>
      intro hact _ n
      simpa [scanSeq] using hact
    | cons i is ih =>
      intro hact hband n
      cases n with
      | zero => simpa [scanSeq] using hact
      | succ m =>
        have hb := hband i (List.mem_cons_self i is)
        have hstep : isActive (scanStation st station i).1 station.station_id
            = true := by
          unfold isActive
          rw [scan_active_storms_in_band st station i (le_of_lt hb.1) hb.2]
          exact hact
        rw [List.take_succ_cons]
        exact ih (scanStation st station i).1 hstep
          (fun j hj => hband j (List.mem_cons_of_mem _ hj)) m
  · intro st station i hact hinact
    by_cases hok : i.prep_ok = true
    · refine ⟨hok, ?_⟩
      by_cases henter : ACTIVE_ENTER ≤ i.pred.tornado_probability
      · unfold isActive at hinact
        rw [scanStation_fst_active_storms, if_pos hok,
          updateActiveStorms_of_enter henter,
          dictContains_dictSet_self] at hinact
        cases hinact
      · by_cases hexit : i.pred.tornado_probability < ACTIVE_EXIT
        · exact hexit
        · unfold isActive at hinact
          rw [scan_active_storms_in_band st station i (not_lt.mp hexit)
            (not_le.mp henter)] at hinact
          unfold isActive at hact
          rw [hact] at hinact
          cases hinact
    · rw [scanStation_prep_fail st station i
        (Bool.not_eq_true _ ▸ hok : i.prep_ok = false)] at hinact
      rw [hact] at hinact
      cases hinact

/-- Witness for C2: a concretely ACTIVE station stays ACTIVE through two
concrete in-band scans (0.15 then 0.19). -/
theorem C2_hysteresis_no_flap_witness :
    isActive
      (scanSeq c3State tStation
        ([baseInput 0.15 10, baseInput 0.19 20].take 2)) "S1" = true :=
  C2_hysteresis_no_flap.1 c3State tStation [baseInput 0.15 10, baseInput 0.19 20]
    (by simp [isActive, dictContains, c3State, tStation])
    (by
      intro j hj
      rcases List.mem_cons.mp hj with rfl | hj2
      · constructor
        · show ACTIVE_EXIT < (0.15 : ℚ); norm_num [ACTIVE_EXIT]
        · show (0.15 : ℚ) < ACTIVE_ENTER; norm_num [ACTIVE_ENTER]
      · rcases List.mem_cons.mp hj2 with rfl | hj3
        · constructor
          · show ACTIVE_EXIT < (0.19 : ℚ); norm_num [ACTIVE_EXIT]
          · show (0.19 : ℚ) < ACTIVE_ENTER; norm_num [ACTIVE_ENTER]
        · cases hj3)
    2

/-- C4: dedup idempotence — with no matching record in the window, a first
emission inserts exactly one record, and a second emission within 15 minutes
with the same rounded probability and EF class finds it and returns without
inserting, whatever its assistant outcome. -/
theorem C4_dedup_idempotent (db : List AlertRecord) (t1 t2 : ℚ)
    (station : Station) (p1 p2 : EnrichedPred) (a1 : String)
    (a2 : Option String)
    (hsig : round2 p1.tornado_probability = round2 p2.tornado_probability)
    (hef : p1.most_likely_ef_scale = p2.most_likely_ef_scale)
    (hfresh : isDuplicate db station.station_id
        (sigOf station.station_id p1) (t1 - 15 * 60) = false)
    (hwin : t2 ≤ t1 + 15 * 60) :
    ∃ r : AlertRecord,
      maybeEmitAlert db t1 (some a1) station p1 = .ok (db ++ [r])
      ∧ maybeEmitAlert (db ++ [r]) t2 a2 station p2 = .ok (db ++ [r]) := by
  refine ⟨mkAlertDoc station p1 t1
    (if a1 = "" then fallbackAlertMsg else a1), ?_, ?_⟩
  · unfold maybeEmitAlert
    rw [if_neg (by simp [hfresh])]
  · apply maybeEmitAlert_of_dup
    unfold isDuplicate
    simp only [List.any_append, List.any_cons, List.any_nil, Bool.or_false]
    rw [Bool.or_eq_true]
    refine Or.inr ?_
    rw [decide_eq_true_eq]
    refine ⟨rfl, rfl, ?_, ?_⟩
    · show sigOf station.station_id p1 = sigOf station.station_id p2
      simp [sigOf, hsig, hef]
    · show t1 ≥ t2 - 15 * 60
      linarith

/-- Witness for C4: concrete double emission at times 0 and 600 with equal
signatures from an empty history. -/
theorem C4_dedup_idempotent_witness :
    ∃ r : AlertRecord,
      maybeEmitAlert [] 0 (some "a") tStation
          (enrichPred tStation (basePred 0.5 1 0.5)) = .ok ([] ++ [r])
      ∧ maybeEmitAlert ([] ++ [r]) 600 none tStation
          (enrichPred tStation (basePred 0.5 1 0.5)) = .ok ([] ++ [r]) :=
  C4_dedup_idempotent [] 0 600 tStation
    (enrichPred tStation (basePred 0.5 1 0.5))
    (enrichPred tStation (basePred 0.5 1 0.5)) "a" none rfl rfl
    (by simp [isDuplicate]) (by norm_num)

lemma isDuplicate_cons_of_sig_ne {r : AlertRecord} {db : List AlertRecord}
    {sid : String} {sig : String × ℚ × ℤ} {since : ℚ}
    (h1 : ¬ r.sig_hash = sig)
    (h2 : isDuplicate db sid sig since = false) :
    isDuplicate (r :: db) sid sig since = false := by
  simp only [isDuplicate, List.any_cons] at h2 ⊢
  rw [h2, Bool.or_false, decide_eq_false_iff_not]
  rintro ⟨-, -, hs, -⟩
  exact h1 hs

lemma sigOf_ne_of_round2_ne {s1 s2 : String} {p q : EnrichedPred}
    (h : round2 p.tornado_probability ≠ round2 q.tornado_probability) :
    sigOf s1 p ≠ sigOf s2 q :=
  fun he => h (congrArg (fun z => z.2.1) he)

lemma c6step1 :
    (scanStation initState tStation (baseInput 0.05 0)).1 = initState := by
  rw [@scanStation_of_gate_false initState tStation (baseInput 0.05 0) rfl
      (by show (0.05 : ℚ) ≤ 0.30; norm_num)
      (by
        show classifyAlertLevel 0.05 1 0.5 = _
        norm_num [classifyAlertLevel]),
    @updateActiveStorms_of_inactive_low initState.active_storms
      tStation.station_id ((baseInput 0.05 0).pred.tornado_probability)
      (mkStormEntry tStation (baseInput 0.05 0)) rfl
      (by show (0.05 : ℚ) < ACTIVE_ENTER; norm_num [ACTIVE_ENTER])]

lemma c6step2 :
    (scanStation initState tStation (baseInput 0.25 60)).1
      = MonitorState.mk [("S1", c6Entry 0.25 60)] [c6Alert 0.25 60] := by
  have hemit : maybeEmitAlert initState.tornado_alerts (baseInput 0.25 60).now
      (baseInput 0.25 60).assistantMsg tStation
      (enrichPred tStation (baseInput 0.25 60).pred)
      = .ok (initState.tornado_alerts ++ [c6Alert 0.25 60]) :=
    maybeEmitAlert_fresh_some rfl (by simp)
  rw [@scanStation_of_emit_ok initState tStation (baseInput 0.25 60)
      (initState.tornado_alerts ++ [c6Alert 0.25 60]) rfl
      (Or.inr (by
        show classifyAlertLevel 0.25 1 0.5 ≠ AlertLevel.NORMAL_CONDITIONS
        norm_num [classifyAlertLevel]
        decide))
      hemit,
    @updateActiveStorms_of_enter initState.active_storms tStation.station_id
      ((baseInput 0.25 60).pred.tornado_probability)
      (mkStormEntry tStation (baseInput 0.25 60))
      (by show ACTIVE_ENTER ≤ (0.25 : ℚ); norm_num [ACTIVE_ENTER])]
  rfl

lemma c6step3 :
    (scanStation (MonitorState.mk [("S1", c6Entry 0.25 60)] [c6Alert 0.25 60])
        tStation (baseInput 0.65 120)).1
      = MonitorState.mk [("S1", c6Entry 0.65 120)]
          [c6Alert 0.25 60, c6Alert 0.65 120] := by
  have hdup : isDuplicate [c6Alert 0.25 60] tStation.station_id
      (sigOf tStation.station_id
        (enrichPred tStation (baseInput 0.65 120).pred))
      ((baseInput 0.65 120).now - 15 * 60) = false :=
    isDuplicate_cons_of_sig_ne
      (sigOf_ne_of_round2_ne (by
        show round2 (0.25 : ℚ) ≠ round2 (0.65 : ℚ)
        norm_num [round2, roundHalfEven]))
      rfl
  have hemit : maybeEmitAlert [c6Alert 0.25 60] (baseInput 0.65 120).now
      (baseInput 0.65 120).assistantMsg tStation
      (enrichPred tStation (baseInput 0.65 120).pred)
      = .ok ([c6Alert 0.25 60] ++ [c6Alert 0.65 120]) :=
    maybeEmitAlert_fresh_some hdup (by simp)
  rw [@scanStation_of_emit_ok
      (MonitorState.mk [("S1", c6Entry 0.25 60)] [c6Alert 0.25 60]) tStation
      (baseInput 0.65 120) ([c6Alert 0.25 60] ++ [c6Alert 0.65 120]) rfl
      (Or.inl (by show (0.65 : ℚ) > 0.30; norm_num)) hemit,
    @updateActiveStorms_of_enter
      (MonitorState.mk [("S1", c6Entry 0.25 60)]
        [c6Alert 0.25 60]).active_storms
      tStation.station_id ((baseInput 0.65 120).pred.tornado_probability)
      (mkStormEntry tStation (baseInput 0.65 120))
      (by show ACTIVE_ENTER ≤ (0.65 : ℚ); norm_num [ACTIVE_ENTER])]
  rfl

lemma c6step4 :
    (scanStation
        (MonitorState.mk [("S1", c6Entry 0.65 120)]
          [c6Alert 0.25 60, c6Alert 0.65 120])
        tStation (baseInput 0.30 180)).1
      = MonitorState.mk [("S1", c6Entry 0.30 180)]
          [c6Alert 0.25 60, c6Alert 0.65 120, c6Alert 0.30 180] := by
  have hdup : isDuplicate [c6Alert 0.25 60, c6Alert 0.65 120]
      tStation.station_id
      (sigOf tStation.station_id
        (enrichPred tStation (baseInput 0.30 180).pred))
      ((baseInput 0.30 180).now - 15 * 60) = false :=
    isDuplicate_cons_of_sig_ne
      (sigOf_ne_of_round2_ne (by
        show round2 (0.25 : ℚ) ≠ round2 (0.30 : ℚ)
        norm_num [round2, roundHalfEven]))
      (isDuplicate_cons_of_sig_ne
        (sigOf_ne_of_round2_ne (by
          show round2 (0.65 : ℚ) ≠ round2 (0.30 : ℚ)
          norm_num [round2, roundHalfEven]))
        rfl)
  have hemit : maybeEmitAlert [c6Alert 0.25 60, c6Alert 0.65 120]
      (baseInput 0.30 180).now (baseInput 0.30 180).assistantMsg tStation
      (enrichPred tStation (baseInput 0.30 180).pred)
      = .ok ([c6Alert 0.25 60, c6Alert 0.65 120] ++ [c6Alert 0.30 180]) :=
    maybeEmitAlert_fresh_some hdup (by simp)
  rw [@scanStation_of_emit_ok
      (MonitorState.mk [("S1", c6Entry 0.65 120)]
        [c6Alert 0.25 60, c6Alert 0.65 120])
      tStation (baseInput 0.30 180)
      ([c6Alert 0.25 60, c6Alert 0.65 120] ++ [c6Alert 0.30 180]) rfl
      (Or.inr (by
        show classifyAlertLevel 0.30 1 0.5 ≠ AlertLevel.NORMAL_CONDITIONS
        norm_num [classifyAlertLevel]
        decide))
      hemit,
    @updateActiveStorms_of_enter
      (MonitorState.mk [("S1", c6Entry 0.65 120)]
        [c6Alert 0.25 60, c6Alert 0.65 120]).active_storms
      tStation.station_id ((baseInput 0.30 180).pred.tornado_probability)
      (mkStormEntry tStation (baseInput 0.30 180))
      (by show ACTIVE_ENTER ≤ (0.30 : ℚ); norm_num [ACTIVE_ENTER])]
  rfl

lemma c6step5 :
    (scanStation
        (MonitorState.mk [("S1", c6Entry 0.30 180)]
          [c6Alert 0.25 60, c6Alert 0.65 120, c6Alert 0.30 180])
        tStation (baseInput 0.10 240)).1
      = MonitorState.mk []
          [c6Alert 0.25 60, c6Alert 0.65 120, c6Alert 0.30 180] := by
  rw [@scanStation_of_gate_false
      (MonitorState.mk [("S1", c6Entry 0.30 180)]
        [c6Alert 0.25 60, c6Alert 0.65 120, c6Alert 0.30 180])
      tStation (baseInput 0.10 240) rfl
      (by show (0.10 : ℚ) ≤ 0.30; norm_num)
      (by
        show classifyAlertLevel 0.10 1 0.5 = _
        norm_num [classifyAlertLevel]),
    @updateActiveStorms_of_exit
      (MonitorState.mk [("S1", c6Entry 0.30 180)]
        [c6Alert 0.25 60, c6Alert 0.65 120, c6Alert 0.30 180]).active_storms
      tStation.station_id ((baseInput 0.10 240).pred.tornado_probability)
      (mkStormEntry tStation (baseInput 0.10 240)) rfl
      (by show (0.10 : ℚ) < ACTIVE_EXIT; norm_num [ACTIVE_EXIT])]
  rfl

lemma c6After_1 : c6After 1 = initState := by
  show (scanStation initState tStation (baseInput 0.05 0)).1 = initState
  exact c6step1

lemma c6After_2 :
    c6After 2 = MonitorState.mk [("S1", c6Entry 0.25 60)] [c6Alert 0.25 60] := by
  show (scanStation (scanStation initState tStation (baseInput 0.05 0)).1
      tStation (baseInput 0.25 60)).1 = _
  rw [c6step1, c6step2]

lemma c6After_3 :
    c6After 3 = MonitorState.mk [("S1", c6Entry 0.65 120)]
      [c6Alert 0.25 60, c6Alert 0.65 120] := by
  show (scanStation
      (scanStation (scanStation initState tStation (baseInput 0.05 0)).1
        tStation (baseInput 0.25 60)).1
      tStation (baseInput 0.65 120)).1 = _
  rw [c6step1, c6step2, c6step3]

lemma c6After_4 :
    c6After 4 = MonitorState.mk [("S1", c6Entry 0.30 180)]
      [c6Alert 0.25 60, c6Alert 0.65 120, c6Alert 0.30 180] := by
  show (scanStation (scanStation
      (scanStation (scanStation initState tStation (baseInput 0.05 0)).1
        tStation (baseInput 0.25 60)).1
      tStation (baseInput 0.65 120)).1 tStation (baseInput 0.30 180)).1 = _
  rw [c6step1, c6step2, c6step3, c6step4]

lemma c6After_5 :
    c6After 5 = MonitorState.mk []
      [c6Alert 0.25 60, c6Alert 0.65 120, c6Alert 0.30 180] := by
  show (scanStation (scanStation (scanStation
      (scanStation (scanStation initState tStation (baseInput 0.05 0)).1
        tStation (baseInput 0.25 60)).1
      tStation (baseInput 0.65 120)).1 tStation (baseInput 0.30 180)).1
      tStation (baseInput 0.10 240)).1 = _
  rw [c6step1, c6step2, c6step3, c6step4, c6step5]

/-- C6 counterexample: in the concrete scenario (probabilities
[0.05, 0.25, 0.65, 0.30, 0.10], EF class 1, confidence 0.5), scan 4 also
persists an alert — the alert count goes from 2 after scan 3 to 3 after
scan 4 — contradicting "an alert is persisted at scan 2 and at scan 3 and
at no other scan". -/
theorem C6_counterexample :
    (c6After 3).tornado_alerts.length = 2
    ∧ (c6After 4).tornado_alerts.length = 3 := by
  rw [c6After_3, c6After_4]
  exact ⟨rfl, rfl⟩

/-- C6 (amended): in the scenario the station becomes ACTIVE at scan 2,
alerts (with pairwise distinct dedup signatures) are persisted at scans 2, 3
and 4 and at no other scan, the station stays ACTIVE through scan 4 and
becomes INACTIVE at scan 5. -/
theorem C6_amended_scenario :
    (isActive (c6After 1) "S1" = false
      ∧ (c6After 1).tornado_alerts.length = 0)
    ∧ (isActive (c6After 2) "S1" = true
      ∧ (c6After 2).tornado_alerts.length = 1)
    ∧ (isActive (c6After 3) "S1" = true
      ∧ (c6After 3).tornado_alerts.length = 2)
    ∧ (isActive (c6After 4) "S1" = true
      ∧ (c6After 4).tornado_alerts.length = 3)
    ∧ (isActive (c6After 5) "S1" = false
      ∧ (c6After 5).tornado_alerts.length = 3)
    ∧ ((c6After 5).tornado_alerts.map AlertRecord.sig_hash).Nodup := by
  rw [c6After_1, c6After_2, c6After_3, c6After_4, c6After_5]
  refine ⟨⟨rfl, rfl⟩, ⟨rfl, rfl⟩, ⟨rfl, rfl⟩, ⟨rfl, rfl⟩, ⟨rfl, rfl⟩, ?_⟩
  simp only [List.map_cons, List.map_nil, List.nodup_cons, List.mem_cons,
    List.mem_singleton, List.not_mem_nil, or_false, not_or, List.nodup_nil,
    and_true]
  refine ⟨⟨?_, ?_⟩, ?_⟩
  · show sigOf tStation.station_id (enrichPred tStation (basePred 0.25 1 0.5))
      ≠ sigOf tStation.station_id (enrichPred tStation (basePred 0.65 1 0.5))
    exact sigOf_ne_of_round2_ne (by
      show round2 (0.25 : ℚ) ≠ round2 (0.65 : ℚ)
      norm_num [round2, roundHalfEven])
  · show sigOf tStation.station_id (enrichPred tStation (basePred 0.25 1 0.5))
      ≠ sigOf tStation.station_id (enrichPred tStation (basePred 0.30 1 0.5))
    exact sigOf_ne_of_round2_ne (by
      show round2 (0.25 : ℚ) ≠ round2 (0.30 : ℚ)
      norm_num [round2, roundHalfEven])
  · refine ⟨?_, not_false⟩
    show sigOf tStation.station_id (enrichPred tStation (basePred 0.65 1 0.5))
      ≠ sigOf tStation.station_id (enrichPred tStation (basePred 0.30 1 0.5))
    exact sigOf_ne_of_round2_ne (by
      show round2 (0.65 : ℚ) ≠ round2 (0.30 : ℚ)
      norm_num [round2, roundHalfEven])

lemma c7AlertYoung_ts : c7AlertYoung.timestamp = 13660 := rfl

lemma c7AlertOld_ts : c7AlertOld.timestamp = 13540 := rfl

lemma c7EntryFresh_lu : c7EntryFresh.last_updated = 96460 := rfl

lemma c7EntryStale_lu : c7EntryStale.last_updated = 96340 := rfl

/-- C7: one cleanup cycle retains exactly the alerts that are not
(AUTOMATED and older than 24h) and exactly the HazardState entries idle for
at most one hour; concretely, at cleanup instant 100000 the AUTOMATED alert
aged 23h59m and the non-AUTOMATED old alert survive while the AUTOMATED
alert aged 24h01m is deleted, and the entry idle 59min survives while the
one idle 61min is pruned. -/
theorem C7_cleanup_correct :
    (∀ (st : MonitorState) (t : ℚ) (r : AlertRecord),
        r ∈ (cleanupOldPredictions st t).tornado_alerts ↔
          r ∈ st.tornado_alerts ∧
            ¬(r.alert_type = "AUTOMATED_ML_ANALYSIS" ∧
              r.timestamp < t - 24 * 3600))
    ∧ (∀ (st : MonitorState) (t : ℚ) (p : String × StormEntry),
        p ∈ (cleanupOldPredictions st t).active_storms ↔
          p ∈ st.active_storms ∧ ¬(t - p.2.last_updated > 3600))
    ∧ (cleanupOldPredictions c7State 100000).tornado_alerts
        = [c7AlertYoung, c7AlertManual]
    ∧ (cleanupOldPredictions c7State 100000).active_storms
        = [("A", c7EntryFresh)] := by
  refine ⟨?_, ?_, ?_, ?_⟩
  · intro st t r
    simp [cleanupOldPredictions, List.mem_filter]
    intro _
    tauto
  · intro st t p
    simp [cleanupOldPredictions, List.mem_filter]
  · have hY : (decide (¬(c7AlertYoung.alert_type = "AUTOMATED_ML_ANALYSIS" ∧
        c7AlertYoung.timestamp < 100000 - 24 * 3600))) = true := by
      rw [decide_eq_true_eq, c7AlertYoung_ts]
      rintro ⟨-, hts⟩
      norm_num at hts
    have hO : (decide (¬(c7AlertOld.alert_type = "AUTOMATED_ML_ANALYSIS" ∧
        c7AlertOld.timestamp < 100000 - 24 * 3600))) = false := by
      rw [decide_eq_false_iff_not, c7AlertOld_ts]
      push_neg
      exact ⟨rfl, by norm_num⟩
    have hM : (decide (¬(c7AlertManual.alert_type = "AUTOMATED_ML_ANALYSIS" ∧
        c7AlertManual.timestamp < 100000 - 24 * 3600))) = true := by
      rw [decide_eq_true_eq]
      rintro ⟨hty, -⟩
      exact absurd hty (by simp [c7AlertManual, mkAlertDoc])
    simp only [cleanupOldPredictions, c7State, List.filter_cons,
      List.filter_nil]
    rw [hY, hO, hM]
    simp
  · have hF : (decide (¬((100000 : ℚ) - c7EntryFresh.last_updated > 3600)))
        = true := by
      rw [decide_eq_true_eq, c7EntryFresh_lu]
      norm_num
    have hS : (decide (¬((100000 : ℚ) - c7EntryStale.last_updated > 3600)))
        = false := by
      rw [decide_eq_false_iff_not, c7EntryStale_lu]
      push_neg
      norm_num
    simp only [cleanupOldPredictions, c7State, List.filter_cons,
      List.filter_nil]
    rw [hF, hS]
    simp

/-- C8 counterexample: at confidence_score 0.756 the persisted record stores
confidence 75 (Python `int()` truncation), whereas the nearest integer to
0.756 × 100 is 76 — the claim's `round` description fails. -/
theorem C8_counterexample :
    maybeEmitAlert [] 1000 (some "m") tStation c8Pred
      = .ok ([] ++ [mkAlertDoc tStation c8Pred 1000 "m"])
    ∧ (mkAlertDoc tStation c8Pred 1000 "m").confidence = 75
    ∧ round (c8Pred.confidence_score * 100) = 76
    ∧ (75 : ℤ) ≠ 76 := by
  refine ⟨maybeEmitAlert_fresh_some rfl (by simp), ?_, ?_, by decide⟩
  · show pyInt ((0.756 : ℚ) * 100) = 75
    norm_num [pyInt]
  · show round ((0.756 : ℚ) * 100) = 76
    rw [round_eq]
    norm_num

/-- C8 (amended): every record built by the emitter has
severity = clamp(1,5, floor(probability·5)+1) — hence severity ∈ [1,5] —
and confidence = floor(confidence_score·100), i.e. Python `int()`
truncation rather than rounding, for the non-negative scores the model
produces. -/
theorem C8_amended_severity_confidence (station : Station)
    (pred : EnrichedPred) (t : ℚ) (msg : String)
    (hp0 : 0 ≤ pred.tornado_probability)
    (hc0 : 0 ≤ pred.confidence_score) :
    (mkAlertDoc station pred t msg).severity
        = min 5 (max 1 (⌊pred.tornado_probability * 5⌋ + 1))
    ∧ 1 ≤ (mkAlertDoc station pred t msg).severity
    ∧ (mkAlertDoc station pred t msg).severity ≤ 5
    ∧ (mkAlertDoc station pred t msg).confidence
        = ⌊pred.confidence_score * 100⌋ := by
  have hpy : pyInt (pred.tornado_probability * 5)
      = ⌊pred.tornado_probability * 5⌋ := by
    unfold pyInt
    rw [if_pos (mul_nonneg hp0 (by norm_num))]
  have hsev : (mkAlertDoc station pred t msg).severity
      = min 5 (max 1 (pyInt (pred.tornado_probability * 5) + 1)) := rfl
  refine ⟨by rw [hsev, hpy], ?_, ?_, ?_⟩
  · rw [hsev]
    exact le_min (by norm_num) (le_max_left 1 _)
  · rw [hsev]
    exact min_le_left 5 _
  · show pyInt (pred.confidence_score * 100) = ⌊pred.confidence_score * 100⌋
    unfold pyInt
    rw [if_pos (mul_nonneg hc0 (by norm_num))]

/-- Witness for the amended C8, at probability 0.5 and confidence score
0.756. -/
theorem C8_amended_severity_confidence_witness :
    (mkAlertDoc tStation c8Pred 1000 "m").severity
        = min 5 (max 1 (⌊c8Pred.tornado_probability * 5⌋ + 1))
    ∧ 1 ≤ (mkAlertDoc tStation c8Pred 1000 "m").severity
    ∧ (mkAlertDoc tStation c8Pred 1000 "m").severity ≤ 5
    ∧ (mkAlertDoc tStation c8Pred 1000 "m").confidence
        = ⌊c8Pred.confidence_score * 100⌋ :=
  C8_amended_severity_confidence tStation c8Pred 1000 "m"
    (by show (0 : ℚ) ≤ 0.5; norm_num)
    (by show (0 : ℚ) ≤ 0.756; norm_num)

/-- C9: the status snapshot has one item per active-storms entry and is
sorted by the items' probability in descending order — every adjacent pair
is ordered. -/
theorem C9_get_active_storms_sorted (st : MonitorState) :
    (get_active_storms st).length = st.active_storms.length
    ∧ List.Chain' (fun a b => b.tornadoProbability ≤ a.tornadoProbability)
        (get_active_storms st) := by
  constructor
  · unfold get_active_storms
    rw [length_sortByProbDesc, List.length_map]
  · exact List.Pairwise.chain' (pairwise_sortByProbDesc _)

/-- C10: invariant — in every state reachable from the fresh monitor by
scans and cleanup cycles, every active-storms entry has probability ≥ ENTER
(0.20): entries are written only at probability ≥ 0.20, dead-band scans
leave the map unchanged, and cleanup only removes entries. -/
theorem C10_active_entries_above_enter (st : MonitorState)
    (h : Reachable st) :
    ∀ p ∈ st.active_storms, ACTIVE_ENTER ≤ p.2.tornado_probability := by
  induction h with
  | init =>
    intro p hp
    cases hp
  | scan st station i _ ih =>
    intro p hp
    rw [scanStation_fst_active_storms] at hp
    by_cases hok : i.prep_ok
    · rw [if_pos hok] at hp
      exact updateActiveStorms_mem hp ih rfl
    · rw [if_neg hok] at hp
      exact ih p hp
  | cleanup st t _ ih =>
    intro p hp
    exact ih p (List.mem_of_mem_filter hp)

/-- Witness for C10: in the concrete state reached by one scan at
probability 0.5 from the fresh monitor, the stored entry satisfies the
invariant. -/
theorem C10_active_entries_above_enter_witness :
    ACTIVE_ENTER ≤ (mkStormEntry tStation c5Input).tornado_probability :=
  C10_active_entries_above_enter (scanStation initState tStation c5Input).1
    (Reachable.scan initState tStation c5Input Reachable.init)
    ("S1", mkStormEntry tStation c5Input)
    (by
      have hok : c5Input.prep_ok = true := rfl
      rw [scanStation_fst_active_storms, if_pos hok,
        @updateActiveStorms_of_enter initState.active_storms
          tStation.station_id (c5Input.pred.tornado_probability)
          (mkStormEntry tStation c5Input)
          (by show ACTIVE_ENTER ≤ (0.5 : ℚ); norm_num [ACTIVE_ENTER])]
      exact List.mem_cons_self _ _)

end StormMonitor
